import Mathlib

/-!
# Shallow embedding of the multi-pass hydraulic erosion simulation

Verification development for the WebGPU erosion sandbox. The embedded code
is the multi-pass simulation path:

* `src/simulation/ErosionSimulation.multipass.ts` — the simulation
  controller (state machine, parameter buffers, texture ping-pong);
* `src/shaders/flow-compute.wgsl` — the flow pass kernel;
* the velocity pass kernel (`velocity-compute.wgsl`);
* `src/shaders/sediment-compute.wgsl` — the sediment transport pass kernel.

Modelling conventions:

* Every `f32` value is modelled as an exact rational (`ℚ`); float literals
  of the source become the rationals they denote (`0.01 = 1/100`, …).
* A `rgba32float` texture of size 1024×1024 is modelled as a total
  function `ℤ → ℤ → V4`; cells outside the 1024×1024 range are never read
  by the kernels (every out-of-range read in the shaders is guarded) and
  are written as `V4.zero`, representing storage that does not exist.
* The WGSL `length` intrinsic (Euclidean norm of a 2-vector) is not
  rational-valued, so every kernel is parametric in a norm function
  `len2 : ℚ → ℚ → ℚ`; concrete statements instantiate it with a
  computable function that agrees with the Euclidean norm at the points
  the statement actually evaluates.
* GPU dispatch is modelled as a pointwise pure function: each kernel
  reads only previously written textures and writes disjoint cells, so a
  dispatch over the grid is the function mapping each in-range cell to
  the kernel's output there.
-/

namespace Erosion

/-- One `rgba32float` texel: four `f32` channels, modelled exactly. -/
structure V4 where
  x : ℚ
  y : ℚ
  z : ℚ
  w : ℚ
deriving DecidableEq

/-- The zero texel (WebGPU zero-initializes freshly created textures). -/
def V4.zero : V4 := ⟨0, 0, 0, 0⟩

/-- `textureSize = 1024` in `ErosionSimulation.multipass.ts`; all
simulation textures are square of this size. -/
def texSize : ℤ := 1024

/-- A simulation texture. -/
abbrev Grid : Type := ℤ → ℤ → V4

/-- The coordinate range covered by one compute dispatch: workgroups cover
exactly `[0, texSize)²` and each kernel early-returns outside the texture. -/
abbrev inB (x y : ℤ) : Prop := 0 ≤ x ∧ x < texSize ∧ 0 ≤ y ∧ y < texSize

/-! ## Flow pass (`flow-compute.wgsl`)

The uniform struct `FlowParams`, in the exact layout written by
`updateParameterBuffers` (12 floats; booleans are encoded as 1.0 / 0.0 and
tested against 0.5 in the shader). -/

structure FlowParams where
  time : ℚ
  timestep : ℚ
  gravity : ℚ
  pipe_len : ℚ
  pipe_area : ℚ
  globalRainEnabled : ℚ
  mouseRainEnabled : ℚ
  mouseRainActive : ℚ
  mouseRainX : ℚ
  mouseRainY : ℚ
  mouseRainStrength : ℚ
  mouseRainRadius : ℚ

/-- The shader's `water_amount`: the cell's current water plus rain input.
Global rain adds the constant `0.01 * timestep`; brush rain adds
`strength * (1 - distance/radius) * timestep` inside the brush radius.
In the shader `pixel_pos = (coord/dims)*dims`, which is exactly `coord`
(division by a power of two is exact in `f32`), so the distance is
`len2 (x - mouseRainX) (y - mouseRainY)`. -/
def flowWaterAmount (len2 : ℚ → ℚ → ℚ) (p : FlowParams) (water : Grid)
    (x y : ℤ) : ℚ :=
  let cur := (water x y).x
  let cur := if 1/2 < p.globalRainEnabled then cur + 1/100 * p.timestep else cur
  if 1/2 < p.mouseRainEnabled ∧ 1/2 < p.mouseRainActive then
    let dist := len2 ((x : ℚ) - p.mouseRainX) ((y : ℚ) - p.mouseRainY)
    if dist < p.mouseRainRadius then
      cur + p.mouseRainStrength * (1 - dist / p.mouseRainRadius) * p.timestep
    else cur
  else cur

/-- Bounds-checked neighbour terrain sample toward `+y` (the shader's
`top_terrain`, `vec4(0.0)` when the neighbour is outside the texture). -/
def topTerrainX (terrain : Grid) (x y : ℤ) : ℚ :=
  if y + 1 < texSize then (terrain x (y + 1)).x else 0

/-- Bounds-checked neighbour terrain sample toward `+x`. -/
def rightTerrainX (terrain : Grid) (x y : ℤ) : ℚ :=
  if x + 1 < texSize then (terrain (x + 1) y).x else 0

/-- Bounds-checked neighbour terrain sample toward `-y`. -/
def bottomTerrainX (terrain : Grid) (x y : ℤ) : ℚ :=
  if 0 ≤ y - 1 then (terrain x (y - 1)).x else 0

/-- Bounds-checked neighbour terrain sample toward `-x`. -/
def leftTerrainX (terrain : Grid) (x y : ℤ) : ℚ :=
  if 0 ≤ x - 1 then (terrain (x - 1) y).x else 0

/-- The shader's `h_top_out`: the height differential driving the top
outflow. The self side is `cur_terrain.x + water_amount`; the neighbour
side is its terrain sample plus the literal `0.0` (the shader's comment:
assume neighbours have no water for now). -/
def h_top_out (len2 : ℚ → ℚ → ℚ) (p : FlowParams) (terrain water : Grid)
    (x y : ℤ) : ℚ :=
  ((terrain x y).x + flowWaterAmount len2 p water x y) -
    (topTerrainX terrain x y + 0)

/-- The shader's `h_right_out`. -/
def h_right_out (len2 : ℚ → ℚ → ℚ) (p : FlowParams) (terrain water : Grid)
    (x y : ℤ) : ℚ :=
  ((terrain x y).x + flowWaterAmount len2 p water x y) -
    (rightTerrainX terrain x y + 0)

/-- The shader's `h_bottom_out`. -/
def h_bottom_out (len2 : ℚ → ℚ → ℚ) (p : FlowParams) (terrain water : Grid)
    (x y : ℤ) : ℚ :=
  ((terrain x y).x + flowWaterAmount len2 p water x y) -
    (bottomTerrainX terrain x y + 0)

/-- The shader's `h_left_out`. -/
def h_left_out (len2 : ℚ → ℚ → ℚ) (p : FlowParams) (terrain water : Grid)
    (x y : ℤ) : ℚ :=
  ((terrain x y).x + flowWaterAmount len2 p water x y) -
    (leftTerrainX terrain x y + 0)

/-- The shader's `gravity_term = timestep * gravity * pipe_area / pipe_len`. -/
def gravity_term (p : FlowParams) : ℚ :=
  p.timestep * p.gravity * p.pipe_area / p.pipe_len

/-- The four outflow fluxes before the volume-scaling and boundary steps:
`f_dir_out = max(0, cur_flux.dir + gravity_term * h_dir_out)`, packed as
`(top, right, bottom, left)` — the channel order of the flux texture. -/
def flowFluxUnscaled (len2 : ℚ → ℚ → ℚ) (p : FlowParams)
    (terrain water flux : Grid) (x y : ℤ) : V4 :=
  ⟨max 0 ((flux x y).x + gravity_term p * h_top_out len2 p terrain water x y),
   max 0 ((flux x y).y + gravity_term p * h_right_out len2 p terrain water x y),
   max 0 ((flux x y).z + gravity_term p * h_bottom_out len2 p terrain water x y),
   max 0 ((flux x y).w + gravity_term p * h_left_out len2 p terrain water x y)⟩

/-- The shader's `water_out = timestep * (f_top + f_right + f_bottom + f_left)`. -/
def water_out (len2 : ℚ → ℚ → ℚ) (p : FlowParams)
    (terrain water flux : Grid) (x y : ℤ) : ℚ :=
  let f := flowFluxUnscaled len2 p terrain water flux x y
  p.timestep * (f.x + f.y + f.z + f.w)

/-- The shader's scaling factor
`k = min(1, water_amount * pipe_len * pipe_len / max(water_out, 0.001))`. -/
def flowK (len2 : ℚ → ℚ → ℚ) (p : FlowParams)
    (terrain water flux : Grid) (x y : ℤ) : ℚ :=
  min 1 ((flowWaterAmount len2 p water x y * p.pipe_len * p.pipe_len) /
    max (water_out len2 p terrain water flux x y) (1/1000))

/-- The flux quadruple the flow pass writes: the unscaled outflows times
`k`, then the per-direction boundary zeroing (`x ≤ 0` kills left,
`x ≥ texSize - 1` kills right, `y ≤ 0` kills bottom, `y ≥ texSize - 1`
kills top), then the blanket rule zeroing all four on any edge cell. -/
def flowFluxOut (len2 : ℚ → ℚ → ℚ) (p : FlowParams)
    (terrain water flux : Grid) (x y : ℤ) : V4 :=
  let f := flowFluxUnscaled len2 p terrain water flux x y
  let k := flowK len2 p terrain water flux x y
  let ft := f.x * k
  let fr := f.y * k
  let fb := f.z * k
  let fl := f.w * k
  let fl := if x ≤ 0 then 0 else fl
  let fr := if texSize - 1 ≤ x then 0 else fr
  let fb := if y ≤ 0 then 0 else fb
  let ft := if texSize - 1 ≤ y then 0 else ft
  if x ≤ 0 ∨ texSize - 1 ≤ x ∨ y ≤ 0 ∨ texSize - 1 ≤ y then V4.zero
  else ⟨ft, fr, fb, fl⟩

/-- The texel the flow pass writes to the water texture:
`vec4(water_amount, 0, 0, 1)`. -/
def flowWaterWrite (len2 : ℚ → ℚ → ℚ) (p : FlowParams) (water : Grid)
    (x y : ℤ) : V4 :=
  ⟨flowWaterAmount len2 p water x y, 0, 0, 1⟩

/-! ## Velocity pass (`velocity-compute.wgsl`)

The uniform layout written by `updateParameterBuffers`:
`time, timestep, pipe_len, padding`. Per the controller's bind group this
pass reads the height texture and the read-side flux texture (the flux of
the previous step, not the flux the flow pass just wrote). -/

structure VelocityParams where
  time : ℚ
  timestep : ℚ
  pipe_len : ℚ

/-- The velocity kernel. Inflow variables receive each neighbour's
outflow toward this cell exactly as the shader assigns them
(`inflow_bottom` from the `+y` neighbour's `z` channel, `inflow_left`
from the `+x` neighbour's `w`, `inflow_top` from the `-y` neighbour's
`x`, `inflow_right` from the `-x` neighbour's `y`); water depth is the
`y` channel of the terrain texture; velocity is divided by
`new_water_depth * pipe_len` only above the `0.001` depth guard, and the
vector is renormalized when its norm exceeds 1. -/
def velocityMain (len2 : ℚ → ℚ → ℚ) (p : VelocityParams)
    (terrain flux : Grid) (x y : ℤ) : V4 :=
  let cur_terrain := terrain x y
  let cur_flux := flux x y
  let inflow_bottom := if y + 1 < texSize then (flux x (y + 1)).z else 0
  let inflow_left := if x + 1 < texSize then (flux (x + 1) y).w else 0
  let inflow_top := if 0 ≤ y - 1 then (flux x (y - 1)).x else 0
  let inflow_right := if 0 ≤ x - 1 then (flux (x - 1) y).y else 0
  let delta_water := p.timestep *
    (inflow_top + inflow_right + inflow_bottom + inflow_left -
      (cur_flux.x + cur_flux.y + cur_flux.z + cur_flux.w))
  let new_water_depth := max 0 (cur_terrain.y + delta_water)
  let vx := if 1/1000 < new_water_depth then
      (cur_flux.y - cur_flux.w) / (new_water_depth * p.pipe_len) else 0
  let vy := if 1/1000 < new_water_depth then
      (cur_flux.x - cur_flux.z) / (new_water_depth * p.pipe_len) else 0
  let velocity_mag := len2 vx vy
  let vx := if 1 < velocity_mag then vx / velocity_mag else vx
  let vy := if 1 < velocity_mag then vy / velocity_mag else vy
  ⟨vx, vy, 0, 1⟩

/-! ## Sediment transport pass (`sediment-compute.wgsl`)

Uniform layout: `time, kc, ks, kd, ke, kt, padding`. Per the controller's
bind group this pass reads the height, sediment and read-side velocity
textures (the velocity of the previous step). -/

structure SedimentParams where
  time : ℚ
  kc : ℚ
  ks : ℚ
  kd : ℚ
  ke : ℚ
  kt : ℚ

/-- The 8 neighbour offsets visited by `calculateSlope`, in the shader's
loop order (`dy` outer, `dx` inner, skipping `(0,0)`). -/
def slopeOffsets : List (ℤ × ℤ) :=
  [(-1, -1), (0, -1), (1, -1), (-1, 0), (1, 0), (-1, 1), (0, 1), (1, 1)]

/-- The shader's `calculateSlope`: average the in-bounds neighbours'
`terrain.x + terrain.y` (height plus water), and return the absolute
difference of the cell's own `x + y` against that average; `0.1` if no
neighbour is in bounds. -/
def calculateSlope (terrain : Grid) (x y : ℤ) : ℚ :=
  let center := terrain x y
  let acc := slopeOffsets.foldl
    (fun acc d =>
      let nx := x + d.1
      let ny := y + d.2
      if 0 ≤ nx ∧ nx < texSize ∧ 0 ≤ ny ∧ ny < texSize then
        (acc.1 + ((terrain nx ny).x + (terrain nx ny).y), acc.2 + 1)
      else acc)
    ((0 : ℚ), (0 : ℚ))
  if 0 < acc.2 then |(center.x + center.y) - acc.1 / acc.2| else 1/10

/-- The sediment kernel. Returns the texel written to the terrain write
texture (`height, water, cur_terrain.z, cur_terrain.w`) and the texel
written to the sediment write texture (`sediment, 0, 0, 1`).
`pow(v, 1.0)` in the capacity formula is the identity and the dead local
`slope_multi` is omitted. -/
def sedimentMain (len2 : ℚ → ℚ → ℚ) (p : SedimentParams)
    (terrain sediment velocity : Grid) (x y : ℤ) : V4 × V4 :=
  let cur_terrain := terrain x y
  let cur_sediment := sediment x y
  let cur_velocity := velocity x y
  let slope := max (1/10) (calculateSlope terrain x y)
  let velocity_magnitude := len2 cur_velocity.x cur_velocity.y
  let sediment_capacity := p.kc * slope * velocity_magnitude
  let height := cur_terrain.x
  let water := cur_terrain.y
  let sediment_amount := cur_sediment.x
  let hs :=
    if sediment_amount < sediment_capacity then
      let change_sediment := (sediment_capacity - sediment_amount) * p.ks
      (height - change_sediment, sediment_amount + change_sediment)
    else
      let change_sediment := (sediment_amount - sediment_capacity) * p.kd
      (height + change_sediment, sediment_amount - change_sediment)
  let hs :=
    if 3/10 < slope then
      let thermal_change := slope * p.kt * (1/100)
      (hs.1 - thermal_change, hs.2 + thermal_change * (1/2))
    else hs
  let water := water * (1 - p.ke)
  let height := max hs.1 0
  let water := max water 0
  let sediment_amount := max hs.2 0
  (⟨height, water, cur_terrain.z, cur_terrain.w⟩, ⟨sediment_amount, 0, 0, 1⟩)

/-! ## Simulation controller (`ErosionSimulation.multipass.ts`) -/

/-- The controller's `parameters` object plus defaults; `deltaTime` has no
setter and stays `1/60`. -/
structure Parameters where
  deltaTime : ℚ
  gravity : ℚ
  pipeLength : ℚ
  pipeArea : ℚ
  sedimentCapacity : ℚ
  dissolutionConstant : ℚ
  depositionConstant : ℚ
  evaporationRate : ℚ
  thermalRate : ℚ
  globalRainEnabled : Bool
  mouseRainEnabled : Bool
  mouseRainStrength : ℚ
  mouseRainRadius : ℚ

/-- The full controller state: parameter object, brush state, the five
read-side simulation textures (the authoritative set after each swap), and
the run / terrain-initialized flags. -/
structure SimState where
  params : Parameters
  mouseRainActive : Bool
  mouseRainX : ℚ
  mouseRainY : ℚ
  height : Grid
  water : Grid
  velocity : Grid
  sediment : Grid
  flux : Grid
  isRunning : Bool
  terrainInitialized : Bool

/-- Boolean fields are written to the uniform buffers as 1.0 / 0.0. -/
def boolToF (b : Bool) : ℚ := if b then 1 else 0

/-- The flow uniform buffer written by `updateParameterBuffers` at host
time `t` (`performance.now() / 1000`). -/
def flowParamsOf (t : ℚ) (s : SimState) : FlowParams :=
  ⟨t, s.params.deltaTime, s.params.gravity, s.params.pipeLength,
   s.params.pipeArea, boolToF s.params.globalRainEnabled,
   boolToF s.params.mouseRainEnabled, boolToF s.mouseRainActive,
   s.mouseRainX, s.mouseRainY, s.params.mouseRainStrength,
   s.params.mouseRainRadius⟩

/-- The velocity uniform buffer written by `updateParameterBuffers`. -/
def velocityParamsOf (t : ℚ) (s : SimState) : VelocityParams :=
  ⟨t, s.params.deltaTime, s.params.pipeLength⟩

/-- The sediment uniform buffer written by `updateParameterBuffers`. -/
def sedimentParamsOf (t : ℚ) (s : SimState) : SedimentParams :=
  ⟨t, s.params.sedimentCapacity, s.params.dissolutionConstant,
   s.params.depositionConstant, s.params.evaporationRate,
   s.params.thermalRate⟩

/-- `step()`: no-op unless `isRunning`; otherwise update the parameter
buffers with the current host time `t`, run the three kernels over the
grid into the write-side textures, and swap. Per the bind groups, all
three passes read the read-side textures: the velocity pass reads the
previous step's flux and the sediment pass reads the previous step's
velocity. The write-side textures are fully overwritten on `[0,1024)²`. -/
def step (len2 : ℚ → ℚ → ℚ) (t : ℚ) (s : SimState) : SimState :=
  if s.isRunning = false then s
  else
    let fp := flowParamsOf t s
    let vp := velocityParamsOf t s
    let sp := sedimentParamsOf t s
    let newFlux : Grid := fun x y =>
      if inB x y then flowFluxOut len2 fp s.height s.water s.flux x y
      else V4.zero
    let newWater : Grid := fun x y =>
      if inB x y then flowWaterWrite len2 fp s.water x y else V4.zero
    let newVelocity : Grid := fun x y =>
      if inB x y then velocityMain len2 vp s.height s.flux x y else V4.zero
    let newHeight : Grid := fun x y =>
      if inB x y then (sedimentMain len2 sp s.height s.sediment s.velocity x y).1
      else V4.zero
    let newSediment : Grid := fun x y =>
      if inB x y then (sedimentMain len2 sp s.height s.sediment s.velocity x y).2
      else V4.zero
    { s with flux := newFlux, water := newWater, velocity := newVelocity,
             height := newHeight, sediment := newSediment }

/-- `start()` — sets `isRunning` unconditionally; the terrain-initialized
flag is not consulted. -/
def start (s : SimState) : SimState := { s with isRunning := true }

/-- `stop()`. -/
def stop (s : SimState) : SimState := { s with isRunning := false }

/-- `setMouseRain(x, y, active)`. -/
def setMouseRain (x y : ℚ) (active : Bool) (s : SimState) : SimState :=
  { s with mouseRainActive := active, mouseRainX := x, mouseRainY := y,
           params := { s.params with mouseRainEnabled := active } }

/-- `addRainAtPosition(x, y)` — delegates to `setMouseRain(x, y, true)`. -/
def addRainAtPosition (x y : ℚ) (s : SimState) : SimState :=
  setMouseRain x y true s

/-- `startContinuousRainAtPosition(x, y)` — also `setMouseRain(x, y, true)`. -/
def startContinuousRainAtPosition (x y : ℚ) (s : SimState) : SimState :=
  setMouseRain x y true s

/-- `stopContinuousRain()` — `setMouseRain(0, 0, false)`. -/
def stopContinuousRain (s : SimState) : SimState := setMouseRain 0 0 false s

/-- `setGlobalRain(enabled)`. -/
def setGlobalRain (enabled : Bool) (s : SimState) : SimState :=
  { s with params := { s.params with globalRainEnabled := enabled } }

/-- `setRainRate(value)` — stores only the sign test `value > 0` into the
global-rain flag; the numeric value is discarded. -/
def setRainRate (v : ℚ) (s : SimState) : SimState :=
  { s with params := { s.params with globalRainEnabled := decide (0 < v) } }

/-- `setMouseRainStrength(value)`. -/
def setMouseRainStrength (v : ℚ) (s : SimState) : SimState :=
  { s with params := { s.params with mouseRainStrength := v } }

/-- `initializeTerrain(layerStack)`: with no layer stack the method warns
and returns before touching any state; otherwise the baked heightfield is
copied into the height texture only when the texture formats match
(`formatMatches`), and the terrain-initialized flag is set in both the
matching and the mismatching case. No other texture is written. -/
def initializeTerrain (layerStack : Option Grid) (formatMatches : Bool)
    (s : SimState) : SimState :=
  match layerStack with
  | none => s
  | some baked =>
    if formatMatches then
      { s with height := baked, terrainInitialized := true }
    else
      { s with terrainInitialized := true }

/-- `isTerrainInitialized()`. -/
def isTerrainInitialized (s : SimState) : Bool := s.terrainInitialized

/-- The `parameters` literal in the constructor. -/
def defaultParameters : Parameters :=
  ⟨1/60, 49/5, 1, 2, 25, 5, 3, 1/1000, 1, false, false, 2, 50⟩

/-- The all-zero texture (WebGPU zero-initializes new textures). -/
def zeroGrid : Grid := fun _ _ => V4.zero

/-- The controller state right after construction: default parameters,
brush inactive at the origin, all textures zero, not running, terrain not
initialized. -/
def initialState : SimState :=
  ⟨defaultParameters, false, 0, 0, zeroGrid, zeroGrid, zeroGrid, zeroGrid,
   zeroGrid, false, false⟩

/-- A computable stand-in for the Euclidean norm used to instantiate
`len2` in concrete statements; it agrees with the Euclidean norm at the
axis points those statements evaluate (in particular `len2Taxi 0 0 = 0`). -/
def len2Taxi (a b : ℚ) : ℚ := |a| + |b|

/-! ## Spec-side definitions (for refinement comparisons) -/

/-- Modelled from the spec (§4.1): the total height of a cell is its
terrain height plus its water depth, with the water depth read from the
water grid. -/
def specTotalHeight (terrain water : Grid) (x y : ℤ) : ℚ :=
  (terrain x y).x + (water x y).x

/-! ## Concrete states used by counterexamples and witnesses -/

/-- A water texture holding 7 units of water everywhere. -/
def waterSevenGrid : Grid := fun _ _ => ⟨7, 0, 0, 0⟩

/-- A controller state that has accumulated water in every cell. -/
def stateWithWater : SimState := { initialState with water := waterSevenGrid }

/-- A baked heightfield produced by the layer compositor. -/
def bakedField : Grid := fun _ _ => ⟨1/2, 0, 0, 0⟩

/-- A water texture with 5 units of water only at cell (5, 6). -/
def waterAtTopNeighbor : Grid :=
  fun x y => if x = 5 ∧ y = 6 then ⟨5, 0, 0, 0⟩ else V4.zero

/-! ## Claims -/

/-- C1, counterexample. For a call to `initializeTerrain` whose baked
heightfield matches the height texture's format, the heightfield is
copied and the controller reports initialized — but the water grid is NOT
set to zero: starting from a state with 7 units of water everywhere, cell
(0,0) still holds 7 after the call. -/
theorem C1_counterexample :
    (initializeTerrain (some bakedField) true stateWithWater).height = bakedField ∧
    isTerrainInitialized (initializeTerrain (some bakedField) true stateWithWater) = true ∧
    ((initializeTerrain (some bakedField) true stateWithWater).water 0 0).x = 7 ∧
    (7 : ℚ) ≠ 0 :=
  ⟨rfl, rfl, rfl, by norm_num⟩

/-- C1, amended. `initializeTerrain` with a format-matching baked
heightfield copies the heightfield verbatim into the height grid and
transitions to Initialized (`isTerrainInitialized` returns true), but it
leaves the water, sediment, velocity and flux grids exactly as they were
(they are zero after construction only because textures are
zero-initialized, not because `initializeTerrain` clears them). -/
theorem C1_initializeTerrain_copies_and_flags (s : SimState) (src : Grid) :
    (initializeTerrain (some src) true s).height = src ∧
    isTerrainInitialized (initializeTerrain (some src) true s) = true ∧
    (initializeTerrain (some src) true s).water = s.water ∧
    (initializeTerrain (some src) true s).sediment = s.sediment ∧
    (initializeTerrain (some src) true s).velocity = s.velocity ∧
    (initializeTerrain (some src) true s).flux = s.flux :=
  ⟨rfl, rfl, rfl, rfl, rfl, rfl⟩

/-- C2, counterexample. The control sequence `setRainRate(5); start()`
contains no call to `initializeTerrain` (the terrain-initialized flag is
still false), yet the following `step()` is not a no-op: the water grid
changes from 0 to `0.01 * (1/60)` at cell (5,5), because `start()` sets
the running flag without consulting terrain initialization. -/
theorem C2_counterexample :
    (start (setRainRate 5 initialState)).terrainInitialized = false ∧
    ((start (setRainRate 5 initialState)).water 5 5).x = 0 ∧
    ((step len2Taxi 0 (start (setRainRate 5 initialState))).water 5 5).x = 1/6000 ∧
    (1/6000 : ℚ) ≠ 0 := by
  refine ⟨rfl, rfl, ?_, by norm_num⟩
  norm_num [step, start, setRainRate, initialState, defaultParameters, zeroGrid,
    flowParamsOf, flowWaterWrite, flowWaterAmount, boolToF, inB, texSize,
    V4.zero, len2Taxi]

/-- C2, amended. `step()` is a no-op exactly when the running flag is
down: for every sequence of control calls that does not contain `start()`
(regardless of `initializeTerrain`), `step()` leaves the state — and in
particular every grid — unchanged. The guard is `isRunning`, not terrain
initialization. -/
theorem C2_step_noop_when_not_running (len2 : ℚ → ℚ → ℚ) (t : ℚ)
    (s : SimState) (h : s.isRunning = false) :
    step len2 t s = s := by
  simp [step, h]

/-- C2 witness: on the freshly constructed controller, `step()` changes
nothing. -/
theorem C2_witness : step len2Taxi 0 initialState = initialState :=
  C2_step_noop_when_not_running len2Taxi 0 initialState rfl

/-- C3. After the flow pass, every outflow flux component that points
across the grid boundary is exactly 0: the left component in column 0,
the right component in the last column, the bottom component in row 0 and
the top component in the last row (flux channels are
`(top, right, bottom, left) = (x, y, z, w)`). -/
theorem C3_flow_boundary_flux_zero (len2 : ℚ → ℚ → ℚ) (p : FlowParams)
    (terrain water flux : Grid) (x y : ℤ) :
    (x = 0 → (flowFluxOut len2 p terrain water flux x y).w = 0) ∧
    (x = texSize - 1 → (flowFluxOut len2 p terrain water flux x y).y = 0) ∧
    (y = 0 → (flowFluxOut len2 p terrain water flux x y).z = 0) ∧
    (y = texSize - 1 → (flowFluxOut len2 p terrain water flux x y).x = 0) := by
  refine ⟨?_, ?_, ?_, ?_⟩ <;> intro h <;> subst h <;>
    simp [flowFluxOut, texSize, V4.zero]

/-- C3 witness: concrete boundary cells of a concrete state have zero
boundary-crossing flux. -/
theorem C3_witness :
    (flowFluxOut len2Taxi (flowParamsOf 0 initialState) zeroGrid zeroGrid
      zeroGrid 0 5).w = 0 ∧
    (flowFluxOut len2Taxi (flowParamsOf 0 initialState) zeroGrid zeroGrid
      zeroGrid 1023 5).y = 0 ∧
    (flowFluxOut len2Taxi (flowParamsOf 0 initialState) zeroGrid zeroGrid
      zeroGrid 5 0).z = 0 ∧
    (flowFluxOut len2Taxi (flowParamsOf 0 initialState) zeroGrid zeroGrid
      zeroGrid 5 1023).x = 0 :=
  ⟨(C3_flow_boundary_flux_zero len2Taxi _ _ _ _ 0 5).1 rfl,
   (C3_flow_boundary_flux_zero len2Taxi _ _ _ _ 1023 5).2.1 (by norm_num [texSize]),
   (C3_flow_boundary_flux_zero len2Taxi _ _ _ _ 5 0).2.2.1 rfl,
   (C3_flow_boundary_flux_zero len2Taxi _ _ _ _ 5 1023).2.2.2 (by norm_num [texSize])⟩

/-- Each unscaled outflow is clamped at 0 by the shader's `max`. -/
theorem flowFluxUnscaled_nonneg (len2 : ℚ → ℚ → ℚ) (p : FlowParams)
    (terrain water flux : Grid) (x y : ℤ) :
    0 ≤ (flowFluxUnscaled len2 p terrain water flux x y).x ∧
    0 ≤ (flowFluxUnscaled len2 p terrain water flux x y).y ∧
    0 ≤ (flowFluxUnscaled len2 p terrain water flux x y).z ∧
    0 ≤ (flowFluxUnscaled len2 p terrain water flux x y).w :=
  ⟨le_max_left 0 _, le_max_left 0 _, le_max_left 0 _, le_max_left 0 _⟩

/-- C4. The flux quadruple written by the flow pass satisfies the outflow
bound `Δt * (f_top + f_right + f_bottom + f_left) ≤ water * cellArea`
with `cellArea = pipeLength²` and `water` the cell's water at the start
of the outflow computation (its previous water plus this pass's rain
input — the value the pass also writes out as the cell's water): the
uniform factor `k` scales all four outflows so the bound holds, and the
boundary zeroing only lowers the total further. -/
theorem C4_flow_outflow_bound (len2 : ℚ → ℚ → ℚ) (p : FlowParams)
    (terrain water flux : Grid) (x y : ℤ)
    (hdt : 0 < p.timestep)
    (hwa : 0 ≤ flowWaterAmount len2 p water x y) :
    p.timestep * ((flowFluxOut len2 p terrain water flux x y).x +
      (flowFluxOut len2 p terrain water flux x y).y +
      (flowFluxOut len2 p terrain water flux x y).z +
      (flowFluxOut len2 p terrain water flux x y).w) ≤
    flowWaterAmount len2 p water x y * p.pipe_len * p.pipe_len := by
  obtain ⟨hfx, hfy, hfz, hfw⟩ :=
    flowFluxUnscaled_nonneg len2 p terrain water flux x y
  set f := flowFluxUnscaled len2 p terrain water flux x y with hf
  set wa := flowWaterAmount len2 p water x y with hwadef
  set k := flowK len2 p terrain water flux x y with hkdef
  have hsum : 0 ≤ f.x + f.y + f.z + f.w := by linarith
  have hwoeq : water_out len2 p terrain water flux x y =
      p.timestep * (f.x + f.y + f.z + f.w) := rfl
  have hwo0 : 0 ≤ water_out len2 p terrain water flux x y := by
    rw [hwoeq]; exact mul_nonneg hdt.le hsum
  have hm : (0:ℚ) < max (water_out len2 p terrain water flux x y) (1/1000) :=
    lt_of_lt_of_le (by norm_num) (le_max_right _ _)
  have hL2 : 0 ≤ wa * p.pipe_len * p.pipe_len := by
    have hp2 := mul_self_nonneg p.pipe_len
    nlinarith
  have hkeq : k = min 1 (wa * p.pipe_len * p.pipe_len /
      max (water_out len2 p terrain water flux x y) (1/1000)) := rfl
  have hk0 : 0 ≤ k := by
    rw [hkeq]
    exact le_min (by norm_num) (div_nonneg hL2 hm.le)
  have hkwo : k * water_out len2 p terrain water flux x y ≤
      wa * p.pipe_len * p.pipe_len := by
    rw [hkeq]
    calc min 1 (wa * p.pipe_len * p.pipe_len /
          max (water_out len2 p terrain water flux x y) (1/1000)) *
          water_out len2 p terrain water flux x y
        ≤ (wa * p.pipe_len * p.pipe_len /
            max (water_out len2 p terrain water flux x y) (1/1000)) *
          water_out len2 p terrain water flux x y :=
          mul_le_mul_of_nonneg_right (min_le_right _ _) hwo0
      _ ≤ (wa * p.pipe_len * p.pipe_len /
            max (water_out len2 p terrain water flux x y) (1/1000)) *
          max (water_out len2 p terrain water flux x y) (1/1000) :=
          mul_le_mul_of_nonneg_left (le_max_left _ _) (div_nonneg hL2 hm.le)
      _ = wa * p.pipe_len * p.pipe_len := div_mul_cancel₀ _ (ne_of_gt hm)
  by_cases hedge : x ≤ 0 ∨ texSize - 1 ≤ x ∨ y ≤ 0 ∨ texSize - 1 ≤ y
  · have hout : flowFluxOut len2 p terrain water flux x y = V4.zero := by
      simp only [flowFluxOut]
      rw [if_pos hedge]
    rw [hout]
    show p.timestep * (0 + 0 + 0 + 0) ≤ wa * p.pipe_len * p.pipe_len
    linarith
  · have hout : flowFluxOut len2 p terrain water flux x y =
        ⟨if texSize - 1 ≤ y then 0 else f.x * k,
         if texSize - 1 ≤ x then 0 else f.y * k,
         if y ≤ 0 then 0 else f.z * k,
         if x ≤ 0 then 0 else f.w * k⟩ := by
      simp only [flowFluxOut]
      rw [if_neg hedge]
    rw [hout]
    have h1 : (if texSize - 1 ≤ y then (0:ℚ) else f.x * k) ≤ f.x * k := by
      split_ifs with h
      · exact mul_nonneg hfx hk0
      · exact le_rfl
    have h2 : (if texSize - 1 ≤ x then (0:ℚ) else f.y * k) ≤ f.y * k := by
      split_ifs with h
      · exact mul_nonneg hfy hk0
      · exact le_rfl
    have h3 : (if y ≤ 0 then (0:ℚ) else f.z * k) ≤ f.z * k := by
      split_ifs with h
      · exact mul_nonneg hfz hk0
      · exact le_rfl
    have h4 : (if x ≤ 0 then (0:ℚ) else f.w * k) ≤ f.w * k := by
      split_ifs with h
      · exact mul_nonneg hfw hk0
      · exact le_rfl
    show p.timestep * ((if texSize - 1 ≤ y then (0:ℚ) else f.x * k) +
        (if texSize - 1 ≤ x then (0:ℚ) else f.y * k) +
        (if y ≤ 0 then (0:ℚ) else f.z * k) +
        (if x ≤ 0 then (0:ℚ) else f.w * k)) ≤ wa * p.pipe_len * p.pipe_len
    calc p.timestep * ((if texSize - 1 ≤ y then (0:ℚ) else f.x * k) +
          (if texSize - 1 ≤ x then (0:ℚ) else f.y * k) +
          (if y ≤ 0 then (0:ℚ) else f.z * k) +
          (if x ≤ 0 then (0:ℚ) else f.w * k))
        ≤ p.timestep * (f.x * k + f.y * k + f.z * k + f.w * k) := by
          apply mul_le_mul_of_nonneg_left _ hdt.le
          linarith
      _ = k * (p.timestep * (f.x + f.y + f.z + f.w)) := by ring
      _ = k * water_out len2 p terrain water flux x y := by rw [hwoeq]
      _ ≤ wa * p.pipe_len * p.pipe_len := hkwo

/-- C4 witness: on a concrete state the hypotheses hold and the bound is
realized. -/
theorem C4_witness :
    (0:ℚ) < (flowParamsOf 0 initialState).timestep ∧
    (0:ℚ) ≤ flowWaterAmount len2Taxi (flowParamsOf 0 initialState) zeroGrid 3 3 ∧
    (flowParamsOf 0 initialState).timestep *
      ((flowFluxOut len2Taxi (flowParamsOf 0 initialState) zeroGrid zeroGrid
          zeroGrid 3 3).x +
        (flowFluxOut len2Taxi (flowParamsOf 0 initialState) zeroGrid zeroGrid
          zeroGrid 3 3).y +
        (flowFluxOut len2Taxi (flowParamsOf 0 initialState) zeroGrid zeroGrid
          zeroGrid 3 3).z +
        (flowFluxOut len2Taxi (flowParamsOf 0 initialState) zeroGrid zeroGrid
          zeroGrid 3 3).w) ≤
      flowWaterAmount len2Taxi (flowParamsOf 0 initialState) zeroGrid 3 3 *
        (flowParamsOf 0 initialState).pipe_len *
        (flowParamsOf 0 initialState).pipe_len := by
  refine ⟨?_, ?_, ?_⟩
  · norm_num [flowParamsOf, initialState, defaultParameters]
  · norm_num [flowWaterAmount, flowParamsOf, initialState, defaultParameters,
      zeroGrid, boolToF, V4.zero, len2Taxi]
  · exact C4_flow_outflow_bound len2Taxi (flowParamsOf 0 initialState)
      zeroGrid zeroGrid zeroGrid 3 3
      (by norm_num [flowParamsOf, initialState, defaultParameters])
      (by norm_num [flowWaterAmount, flowParamsOf, initialState,
        defaultParameters, zeroGrid, boolToF, V4.zero, len2Taxi])

/-- The water value computed by the flow pass is non-negative whenever
the cell's previous water is: both rain terms only add water (given a
non-negative brush strength, a non-negative timestep, and a non-negative
norm function). -/
theorem flowWaterAmount_nonneg (len2 : ℚ → ℚ → ℚ) (p : FlowParams)
    (water : Grid) (x y : ℤ) (hlen : ∀ a b, 0 ≤ len2 a b)
    (hdt : 0 ≤ p.timestep) (hstr : 0 ≤ p.mouseRainStrength)
    (hw : 0 ≤ (water x y).x) :
    0 ≤ flowWaterAmount len2 p water x y := by
  have hd : 0 ≤ len2 ((x : ℚ) - p.mouseRainX) ((y : ℚ) - p.mouseRainY) :=
    hlen _ _
  have hga : 0 ≤ 1/100 * p.timestep :=
    mul_nonneg (by norm_num) hdt
  simp only [flowWaterAmount]
  split_ifs with hmouse hdist hg hg' hg''
  · have hr : 0 < p.mouseRainRadius := lt_of_le_of_lt hd hdist
    have hle1 : len2 ((x : ℚ) - p.mouseRainX) ((y : ℚ) - p.mouseRainY) /
        p.mouseRainRadius ≤ 1 := (div_le_one hr).mpr hdist.le
    have hbrush : 0 ≤ p.mouseRainStrength *
        (1 - len2 ((x : ℚ) - p.mouseRainX) ((y : ℚ) - p.mouseRainY) /
          p.mouseRainRadius) * p.timestep :=
      mul_nonneg (mul_nonneg hstr (by linarith)) hdt
    linarith
  · have hr : 0 < p.mouseRainRadius := lt_of_le_of_lt hd hdist
    have hle1 : len2 ((x : ℚ) - p.mouseRainX) ((y : ℚ) - p.mouseRainY) /
        p.mouseRainRadius ≤ 1 := (div_le_one hr).mpr hdist.le
    have hbrush : 0 ≤ p.mouseRainStrength *
        (1 - len2 ((x : ℚ) - p.mouseRainX) ((y : ℚ) - p.mouseRainY) /
          p.mouseRainRadius) * p.timestep :=
      mul_nonneg (mul_nonneg hstr (by linarith)) hdt
    linarith
  · linarith
  · linarith
  · linarith
  · linarith

/-- The sediment pass clamps height, water and sediment at 0 before
writing. -/
theorem sedimentMain_clamped (len2 : ℚ → ℚ → ℚ) (p : SedimentParams)
    (terrain sediment velocity : Grid) (x y : ℤ) :
    0 ≤ (sedimentMain len2 p terrain sediment velocity x y).1.x ∧
    0 ≤ (sedimentMain len2 p terrain sediment velocity x y).1.y ∧
    0 ≤ (sedimentMain len2 p terrain sediment velocity x y).2.x := by
  refine ⟨?_, ?_, ?_⟩
  · show (0:ℚ) ≤ max _ 0
    exact le_max_right _ _
  · show (0:ℚ) ≤ max _ 0
    exact le_max_right _ _
  · show (0:ℚ) ≤ max _ 0
    exact le_max_right _ _

/-- C5. Non-negativity is preserved by a full simulation step: from any
state whose height, water (both the water texture and the terrain
texture's water channel) and sediment grids are non-negative — with a
non-negative brush strength, timestep and norm function — every height,
water and sediment value written by the step is non-negative (the
sediment pass clamps its outputs at 0 and the flow pass only adds
non-negative rain to non-negative water). -/
theorem C5_step_preserves_nonneg (len2 : ℚ → ℚ → ℚ) (t : ℚ) (s : SimState)
    (hlen : ∀ a b, 0 ≤ len2 a b)
    (hdt : 0 ≤ s.params.deltaTime)
    (hstr : 0 ≤ s.params.mouseRainStrength)
    (hh : ∀ x y, 0 ≤ (s.height x y).x)
    (hhw : ∀ x y, 0 ≤ (s.height x y).y)
    (hw : ∀ x y, 0 ≤ (s.water x y).x)
    (hsed : ∀ x y, 0 ≤ (s.sediment x y).x) (x y : ℤ) :
    0 ≤ ((step len2 t s).height x y).x ∧
    0 ≤ ((step len2 t s).height x y).y ∧
    0 ≤ ((step len2 t s).water x y).x ∧
    0 ≤ ((step len2 t s).sediment x y).x := by
  by_cases hrun : s.isRunning = false
  · have hs : step len2 t s = s := by simp [step, hrun]
    rw [hs]
    exact ⟨hh x y, hhw x y, hw x y, hsed x y⟩
  · have hH : (step len2 t s).height x y =
        (if inB x y then
          (sedimentMain len2 (sedimentParamsOf t s) s.height s.sediment
            s.velocity x y).1
        else V4.zero) := by
      simp only [step, if_neg hrun]
    have hW : (step len2 t s).water x y =
        (if inB x y then flowWaterWrite len2 (flowParamsOf t s) s.water x y
         else V4.zero) := by
      simp only [step, if_neg hrun]
    have hS : (step len2 t s).sediment x y =
        (if inB x y then
          (sedimentMain len2 (sedimentParamsOf t s) s.height s.sediment
            s.velocity x y).2
        else V4.zero) := by
      simp only [step, if_neg hrun]
    refine ⟨?_, ?_, ?_, ?_⟩
    · rw [hH]
      split_ifs
      · exact (sedimentMain_clamped len2 (sedimentParamsOf t s) s.height
          s.sediment s.velocity x y).1
      · exact le_rfl
    · rw [hH]
      split_ifs
      · exact (sedimentMain_clamped len2 (sedimentParamsOf t s) s.height
          s.sediment s.velocity x y).2.1
      · exact le_rfl
    · rw [hW]
      split_ifs
      · exact flowWaterAmount_nonneg len2 (flowParamsOf t s) s.water x y
          hlen hdt hstr (hw x y)
      · exact le_rfl
    · rw [hS]
      split_ifs
      · exact (sedimentMain_clamped len2 (sedimentParamsOf t s) s.height
          s.sediment s.velocity x y).2.2
      · exact le_rfl

/-- C5 witness: the hypotheses hold on the freshly started controller and
the stepped grids are non-negative at a concrete cell. -/
theorem C5_witness :
    (∀ a b, 0 ≤ len2Taxi a b) ∧
    (0:ℚ) ≤ (start initialState).params.deltaTime ∧
    (0 ≤ ((step len2Taxi 0 (start initialState)).height 2 2).x ∧
     0 ≤ ((step len2Taxi 0 (start initialState)).height 2 2).y ∧
     0 ≤ ((step len2Taxi 0 (start initialState)).water 2 2).x ∧
     0 ≤ ((step len2Taxi 0 (start initialState)).sediment 2 2).x) := by
  have hlen : ∀ a b, 0 ≤ len2Taxi a b := by
    intro a b
    unfold len2Taxi
    positivity
  refine ⟨hlen, by norm_num [start, initialState, defaultParameters], ?_⟩
  exact C5_step_preserves_nonneg len2Taxi 0 (start initialState) hlen
    (by norm_num [start, initialState, defaultParameters])
    (by norm_num [start, initialState, defaultParameters])
    (fun a b => le_rfl) (fun a b => le_rfl) (fun a b => le_rfl)
    (fun a b => le_rfl) 2 2

/-- C6, counterexample. The height differential driving the top outflow
is NOT `totalHeight(self) - totalHeight(neighbor)`: with flat terrain, no
rain, and an in-bounds top neighbour (5,6) holding 5 units of water, the
shader computes differential 0 at cell (5,5) while the spec's formula
gives -5 — the neighbour's water depth is ignored. -/
theorem C6_counterexample :
    h_top_out len2Taxi (flowParamsOf 0 initialState) zeroGrid
      waterAtTopNeighbor 5 5 = 0 ∧
    specTotalHeight zeroGrid waterAtTopNeighbor 5 5 -
      specTotalHeight zeroGrid waterAtTopNeighbor 5 6 = -5 ∧
    h_top_out len2Taxi (flowParamsOf 0 initialState) zeroGrid
      waterAtTopNeighbor 5 5 ≠
      specTotalHeight zeroGrid waterAtTopNeighbor 5 5 -
        specTotalHeight zeroGrid waterAtTopNeighbor 5 6 := by
  refine ⟨?_, ?_, ?_⟩ <;>
    norm_num [h_top_out, flowWaterAmount, flowParamsOf, initialState,
      defaultParameters, zeroGrid, waterAtTopNeighbor, topTerrainX, texSize,
      boolToF, V4.zero, specTotalHeight]

/-- C6, amended. With rain disabled, the height differential driving each
direction's outflow equals `totalHeight(self) - terrainHeight(neighbor)`:
the self side is terrain height plus water depth (the spec's total
height), but the neighbour side is its terrain height only — the
neighbour's water depth is treated as 0 (and out-of-bounds neighbours are
treated as terrain height 0). With rain enabled, the self side
additionally includes this pass's rain input. -/
theorem C6_heightDiff_neighbor_terrain_only (len2 : ℚ → ℚ → ℚ)
    (p : FlowParams) (terrain water : Grid) (x y : ℤ)
    (hg : p.globalRainEnabled ≤ 1/2) (hm : p.mouseRainEnabled ≤ 1/2) :
    h_top_out len2 p terrain water x y =
      specTotalHeight terrain water x y - topTerrainX terrain x y ∧
    h_right_out len2 p terrain water x y =
      specTotalHeight terrain water x y - rightTerrainX terrain x y ∧
    h_bottom_out len2 p terrain water x y =
      specTotalHeight terrain water x y - bottomTerrainX terrain x y ∧
    h_left_out len2 p terrain water x y =
      specTotalHeight terrain water x y - leftTerrainX terrain x y := by
  have h1 : ¬ (1/2 : ℚ) < p.globalRainEnabled := not_lt.2 hg
  have h2 : ¬ (1/2 : ℚ) < p.mouseRainEnabled := not_lt.2 hm
  have hc : ¬ ((1:ℚ)/2 < p.mouseRainEnabled ∧ (1:ℚ)/2 < p.mouseRainActive) :=
    fun hand => h2 hand.1
  have hwa : flowWaterAmount len2 p water x y = (water x y).x := by
    simp only [flowWaterAmount]
    rw [if_neg hc, if_neg h1]
  refine ⟨?_, ?_, ?_, ?_⟩ <;>
    simp [h_top_out, h_right_out, h_bottom_out, h_left_out, specTotalHeight,
      hwa]

/-- C6 witness: the amended equation evaluated on a concrete no-rain
state. -/
theorem C6_witness :
    h_top_out len2Taxi (flowParamsOf 0 initialState) zeroGrid
      waterAtTopNeighbor 5 5 =
      specTotalHeight zeroGrid waterAtTopNeighbor 5 5 -
        topTerrainX zeroGrid 5 5 :=
  (C6_heightDiff_neighbor_terrain_only len2Taxi (flowParamsOf 0 initialState)
    zeroGrid waterAtTopNeighbor 5 5
    (by norm_num [flowParamsOf, initialState, defaultParameters, boolToF])
    (by norm_num [flowParamsOf, initialState, defaultParameters, boolToF])).1

/-- The `time` uniform written by `updateParameterBuffers`
(`performance.now() / 1000`) is dead in all three kernels, so a step is
independent of the host time. -/
theorem step_time_irrelevant (len2 : ℚ → ℚ → ℚ) (t1 t2 : ℚ) (s : SimState) :
    step len2 t1 s = step len2 t2 s := rfl

/-- K consecutive `step()` calls, with `times n` the host time at the
n-th call. -/
def runSteps (len2 : ℚ → ℚ → ℚ) (times : ℕ → ℚ) : ℕ → SimState → SimState
  | 0, s => s
  | k + 1, s => runSteps len2 times k (step len2 (times k) s)

/-- A K-step run does not depend on the host-time sequence at all. -/
theorem runSteps_time_irrelevant (len2 : ℚ → ℚ → ℚ) (times1 times2 : ℕ → ℚ)
    (k : ℕ) (s : SimState) :
    runSteps len2 times1 k s = runSteps len2 times2 k s := by
  induction k generalizing s with
  | zero => rfl
  | succ k ih =>
    rw [runSteps, runSteps, step_time_irrelevant len2 (times1 k) (times2 k) s]
    exact ih _

/-- C7. Determinism as a two-run property: two K-step runs from the same
initial state (same heightfield, same parameter block) with no brush-rain
interaction produce identical height grids even when the host-time values
written into the parameter buffers differ between the runs — the time
value influences no cell update. -/
theorem C7_determinism (len2 : ℚ → ℚ → ℚ) (k : ℕ) (s : SimState)
    (times1 times2 : ℕ → ℚ) (hbrush : s.mouseRainActive = false) :
    (runSteps len2 times1 k s).height = (runSteps len2 times2 k s).height := by
  rw [runSteps_time_irrelevant len2 times1 times2 k s]

/-- C7 witness: two 2-step runs from the freshly initialized controller
with different time sequences agree on the height grid. -/
theorem C7_witness :
    (runSteps len2Taxi (fun _ => 0) 2
      (start (initializeTerrain (some bakedField) true initialState))).height =
    (runSteps len2Taxi (fun n => (n : ℚ) + 1) 2
      (start (initializeTerrain (some bakedField) true initialState))).height :=
  C7_determinism len2Taxi 2
    (start (initializeTerrain (some bakedField) true initialState))
    (fun _ => 0) (fun n => (n : ℚ) + 1) rfl

/-- C8, counterexample. `addRainAtPosition` is not one-shot: after
`addRainAtPosition(5,5)` and one `step()`, the brush activity flag is
still set, and the next `step()` again receives brush-rain water — the
water at the brush cell goes from `1/30` after one step to `2/30` after
two, whereas an auto-cleared brush would have left it at `1/30`. -/
theorem C8_counterexample :
    (step len2Taxi 0 (start (addRainAtPosition 5 5 initialState))).mouseRainActive = true ∧
    ((step len2Taxi 0 (start (addRainAtPosition 5 5 initialState))).water 5 5).x = 1/30 ∧
    ((step len2Taxi 0 (step len2Taxi 0
      (start (addRainAtPosition 5 5 initialState)))).water 5 5).x = 1/15 ∧
    (1/15 : ℚ) ≠ 1/30 := by
  refine ⟨rfl, ?_, ?_, by norm_num⟩ <;>
    norm_num [step, start, addRainAtPosition, setMouseRain, initialState,
      defaultParameters, zeroGrid, flowParamsOf, flowWaterWrite,
      flowWaterAmount, boolToF, inB, texSize, V4.zero, len2Taxi]

/-- C8, amended. `addRainAtPosition` behaves identically to
`startContinuousRainAtPosition`, and `step()` never clears the brush
activity flag: brush rain persists across steps until
`stopContinuousRain()` (or `reset`) is called. -/
theorem C8_addRain_persists (x y : ℚ) (s : SimState) (len2 : ℚ → ℚ → ℚ)
    (t : ℚ) :
    addRainAtPosition x y s = startContinuousRainAtPosition x y s ∧
    (step len2 t s).mouseRainActive = s.mouseRainActive := by
  refine ⟨rfl, ?_⟩
  unfold step
  split <;> rfl

/-- C9. `setRainRate(v)` keeps only the sign of `v`: it writes
`v > 0` into the global-rain flag, and any two positive rates produce
identical controller states; when global rain is on, every cell's water
input from global rain is exactly `0.01 * timestep` more than with global
rain off, independent of the rate value. -/
theorem C9_setRainRate_sign_only (v v1 v2 : ℚ) (s : SimState)
    (len2 : ℚ → ℚ → ℚ) (p : FlowParams) (water : Grid) (x y : ℤ)
    (h1 : 0 < v1) (h2 : 0 < v2) (hg : 1/2 < p.globalRainEnabled) :
    (setRainRate v s).params.globalRainEnabled = decide (0 < v) ∧
    setRainRate v1 s = setRainRate v2 s ∧
    flowWaterAmount len2 p water x y =
      flowWaterAmount len2 { p with globalRainEnabled := 0 } water x y +
        1/100 * p.timestep := by
  refine ⟨rfl, ?_, ?_⟩
  · simp [setRainRate, h1, h2]
  · have hng : ¬ (1/2 : ℚ) < (0 : ℚ) := by norm_num
    simp only [flowWaterAmount, hg, if_true, if_pos hg, if_neg hng]
    split_ifs <;> ring

/-- C9 witness: a negative rate disables the flag, two positive rates
yield equal states, and the enabled/disabled water difference is exactly
`0.01 * (1/60)` on a concrete state. -/
theorem C9_witness :
    (setRainRate (-3) initialState).params.globalRainEnabled = decide ((0:ℚ) < -3) ∧
    setRainRate 1 initialState = setRainRate 2 initialState ∧
    flowWaterAmount len2Taxi (flowParamsOf 0 (setGlobalRain true initialState))
        zeroGrid 0 0 =
      flowWaterAmount len2Taxi
        { flowParamsOf 0 (setGlobalRain true initialState) with
            globalRainEnabled := 0 } zeroGrid 0 0 +
        1/100 * (flowParamsOf 0 (setGlobalRain true initialState)).timestep := by
  have h := C9_setRainRate_sign_only (-3) 1 2 initialState len2Taxi
    (flowParamsOf 0 (setGlobalRain true initialState)) zeroGrid 0 0
    (by norm_num) (by norm_num)
    (by norm_num [flowParamsOf, setGlobalRain, initialState,
      defaultParameters, boolToF])
  exact ⟨h.1, h.2.1, h.2.2⟩

/-- C10. When `initializeTerrain` sees a texture-format mismatch between
the baked heightfield and the height texture, the copy is skipped — the
height grid retains its previous contents — yet the terrain-initialized
flag is still set, so `isTerrainInitialized()` returns true. -/
theorem C10_mismatch_keeps_height_sets_flag (s : SimState) (src : Grid) :
    (initializeTerrain (some src) false s).height = s.height ∧
    (initializeTerrain (some src) false s).terrainInitialized = true ∧
    isTerrainInitialized (initializeTerrain (some src) false s) = true :=
  ⟨rfl, rfl, rfl⟩

end Erosion
